import Mathlib

/-!
Verification of the Unit 2 active-power prediction app (two Streamlit
variants, `stream1.py` and `stream11.py`).

Modelling conventions for the shallow embedding:
- Numeric scalars (slider values, the raw model output, the clamped
  prediction) are modelled as exact rationals `ℚ`.
- The ONNX model is opaque: it is an arbitrary function from the six
  collected inputs to a raw scalar.
- The log file on disk is modelled at the level of parsed CSV content:
  `Option CsvFile`, where `none` is "file does not exist" and a `CsvFile`
  is the list of rows, each row a list of typed cells (`csv.writer`
  stringifies values and `pandas.read_csv` parses them back; the cell
  level is the abstraction at which the spec states its round-trip
  property, "within float formatting precision").
- Streamlit UI calls (`st.markdown`, `st.warning`, `st.info`,
  `st.success`) are modelled as emitted effects.
-/

/-- A CSV cell: text, a numeric value, or the NaN that `pandas.read_csv`
pads a short row with. `csv.writer` / `pandas.to_csv` write numbers in
decimal notation and `pandas.read_csv` parses them back to numbers, so at
the file-model level a cell is typed. -/
inductive Cell where
  | str (s : String)
  | num (q : ℚ)
  | nan
deriving DecidableEq, Repr

/-- One CSV row. -/
abbrev Row := List Cell

/-- The parsed content of `unit2_log.csv`. -/
abbrev CsvFile := List Row

/-- The six collected sensor readings, in the order both scripts build
their input array: `[steam_flow, hrh_p, hrh_t, main_p, hp_t, ambient]`. -/
structure InputVector where
  steam_flow : ℚ
  hrh_p : ℚ
  hrh_t : ℚ
  main_p : ℚ
  hp_t : ℚ
  ambient : ℚ
deriving DecidableEq, Repr

/-- The slider bounds of both scripts (`st.slider(label, min, max, default)`):
steam flow 180.0–910.0, HRH pressure 1.2–4.39, HRH temperature 390–540,
main steam pressure 7.0–17.39, HP temperature 390–540, ambient -4.0–50.0. -/
def validInput (v : InputVector) : Prop :=
  180 ≤ v.steam_flow ∧ v.steam_flow ≤ 910 ∧
  (12/10 : ℚ) ≤ v.hrh_p ∧ v.hrh_p ≤ (439/100 : ℚ) ∧
  390 ≤ v.hrh_t ∧ v.hrh_t ≤ 540 ∧
  7 ≤ v.main_p ∧ v.main_p ≤ (1739/100 : ℚ) ∧
  390 ≤ v.hp_t ∧ v.hp_t ≤ 540 ∧
  -4 ≤ v.ambient ∧ v.ambient ≤ 50

instance (v : InputVector) : Decidable (validInput v) := by
  unfold validInput; infer_instance

/-- `stream1.py` line 92: `clipped_result = max(min(predicted_mw, 290), 140)`
(integer literals; numerically the same bounds). -/
def clipped1 (predicted_mw : ℚ) : ℚ :=
  max (min predicted_mw 290) 140

/-- `stream11.py` line 113:
`clipped_result = max(min(predicted_mw, 290.0), 140.0)`. -/
def clipped11 (predicted_mw : ℚ) : ℚ :=
  max (min predicted_mw 290) 140

/-- The whole prediction step of `stream11.py` lines 110–113: run the
(opaque) model on the six inputs and clamp the scalar it returns. -/
def predict (model : InputVector → ℚ) (v : InputVector) : ℚ :=
  clipped11 (model v)

/-- A timestamp as `datetime.datetime.now()` provides it, to second
precision. -/
structure DateTime where
  year : Nat
  month : Nat
  day : Nat
  hour : Nat
  minute : Nat
  second : Nat
deriving DecidableEq, Repr

/-- Zero-padding to two digits, as `strftime` does for `%m %d %H %M %S`. -/
def pad2 (n : Nat) : String :=
  if n < 10 then "0" ++ toString n else toString n

/-- Zero-padding to four digits, as `strftime` does for `%Y`. -/
def pad4 (n : Nat) : String :=
  if n < 10 then "000" ++ toString n
  else if n < 100 then "00" ++ toString n
  else if n < 1000 then "0" ++ toString n
  else toString n

/-- `datetime.datetime.now().strftime("%Y-%m-%d %H:%M:%S")`, used by both
scripts for the Time column. -/
def formatTimestamp (t : DateTime) : String :=
  pad4 t.year ++ "-" ++ pad2 t.month ++ "-" ++ pad2 t.day ++ " " ++
  pad2 t.hour ++ ":" ++ pad2 t.minute ++ ":" ++ pad2 t.second

/-- One logged prediction event: timestamp string, the six inputs, and the
clamped prediction. -/
structure LogRecord where
  time : String
  steam_flow : ℚ
  hrh_p : ℚ
  hrh_t : ℚ
  main_p : ℚ
  hp_t : ℚ
  ambient : ℚ
  predicted_mw : ℚ
deriving DecidableEq, Repr

/-- The header row `stream11.py` line 127 writes when the file does not
yet exist. -/
def header : Row :=
  [Cell.str "Time", Cell.str "Steam Flow", Cell.str "HRH P", Cell.str "HRH T",
   Cell.str "Main Steam P", Cell.str "HP Temp", Cell.str "Ambient",
   Cell.str "Predicted MW"]

/-- The data row `stream11.py` lines 118–121 builds:
`[time, steam_flow, hrh_p, hrh_t, main_p, hp_t, ambient, clipped_result]`. -/
def recordRow (r : LogRecord) : Row :=
  [Cell.str r.time, Cell.num r.steam_flow, Cell.num r.hrh_p, Cell.num r.hrh_t,
   Cell.num r.main_p, Cell.num r.hp_t, Cell.num r.ambient,
   Cell.num r.predicted_mw]

/-- The append of `stream11.py` lines 122–128: test `os.path.exists`, open
in append mode, write the header first iff the file did not exist, then
write the record's row. -/
def appendLog (fs : Option CsvFile) (r : LogRecord) : CsvFile :=
  match fs with
  | none => [header, recordRow r]
  | some rows => rows ++ [recordRow r]

/-- The header row `stream1.py` writes: `pd.DataFrame([log]).to_csv` with
the dict keys of lines 97–102 as columns. -/
def header1 : Row :=
  [Cell.str "Time", Cell.str "Steam Flow", Cell.str "HRH P", Cell.str "HRH T",
   Cell.str "Main Steam P", Cell.str "HP Temp", Cell.str "Ambient",
   Cell.str "Predicted MW"]

/-- The data row `stream1.py` lines 97–102 builds (dict value order). -/
def recordRow1 (r : LogRecord) : Row :=
  [Cell.str r.time, Cell.num r.steam_flow, Cell.num r.hrh_p, Cell.num r.hrh_t,
   Cell.num r.main_p, Cell.num r.hp_t, Cell.num r.ambient,
   Cell.num r.predicted_mw]

/-- The append of `stream1.py` lines 104–107: if the file exists,
`to_csv(mode='a', header=False)` appends the row; otherwise `to_csv`
creates the file with the header row followed by the row. -/
def appendLog1 (fs : Option CsvFile) (r : LogRecord) : CsvFile :=
  match fs with
  | some rows => rows ++ [recordRow1 r]
  | none => [header1, recordRow1 r]

/-- `pandas.read_csv` pads a data row that has fewer fields than the
header with NaN, out to the header's width. -/
def padRow (w : Nat) (row : Row) : Row :=
  row ++ List.replicate (w - row.length) Cell.nan

/-- `pandas.read_csv` on the content of an existing file: an empty file
raises `EmptyDataError`; otherwise the first row is the header and every
later row is a data row — a data row with more fields than the header
raises `ParserError`, a shorter one is padded with NaN, and cell values
(numeric or not) are taken as they are.  The result is the DataFrame:
the header and the full list of padded data rows. -/
def readCsv (rows : CsvFile) : Except String (Row × List Row) :=
  match rows with
  | [] => Except.error "EmptyDataError"
  | hdr :: dataRows =>
      if ∀ r ∈ dataRows, r.length ≤ hdr.length then
        Except.ok (hdr, dataRows.map (padRow hdr.length))
      else Except.error "ParserError"

/-- `stream11.py` lines 136–144 (`load_log`): return `None` when the file
does not exist; otherwise `pd.read_csv` the whole file, with any
exception (empty file, overlong row) caught and turned into `None`. -/
def load_log (fs : Option CsvFile) : Option (Row × List Row) :=
  match fs with
  | none => none
  | some rows => (readCsv rows).toOption

/-- A Streamlit user-facing message. -/
inductive Msg where
  | success (s : String)
  | info (s : String)
  | warning (s : String)
deriving DecidableEq, Repr

/-- `stream11.py` lines 156–164 (clear): delete the file and report
success when it exists, otherwise report the informational message
`No log file to clear.`. Returns the new file state and the message. -/
def clearLog11 (fs : Option CsvFile) : Option CsvFile × Msg :=
  match fs with
  | some _ => (none, Msg.success "✅ Log cleared successfully.")
  | none => (none, Msg.info "No log file to clear.")

/-- `stream1.py` lines 121–124 (clear): delete the file and report success
when it exists; when it does not exist nothing happens and nothing is
reported (there is no else branch). -/
def clearLog1 (fs : Option CsvFile) : Option CsvFile × Option Msg :=
  match fs with
  | some _ => (none, some (Msg.success "✅ Log cleared successfully."))
  | none => (none, none)

/-- The state of the ONNX runtime within one process: which paths have a
cached `InferenceSession` (handles are numbered in creation order), the
next fresh handle number, and the list of model-load events so far. -/
structure OrtEnv where
  cache : List (String × Nat)
  nextHandle : Nat
  loadEvents : List String
deriving DecidableEq, Repr

/-- `ort.InferenceSession(path, ...)`: loading the model file produces a
fresh handle and records a load event. -/
def loadModel (path : String) (env : OrtEnv) : Nat × OrtEnv :=
  (env.nextHandle,
   { cache := (path, env.nextHandle) :: env.cache,
     nextHandle := env.nextHandle + 1,
     loadEvents := env.loadEvents ++ [path] })

/-- `stream11.py` lines 75–92: `get_session` under `@st.cache_resource`,
memoized for the process lifetime keyed by the path argument — return the
cached handle when present, otherwise load and cache. -/
def get_session (path : String) (env : OrtEnv) : Nat × OrtEnv :=
  match env.cache.lookup path with
  | some h => (h, env)
  | none => loadModel path env

/-- `stream1.py` lines 71–74: the session is created at top level with no
caching, so every run of the script loads the model again. -/
def session1 (path : String) (env : OrtEnv) : Nat × OrtEnv :=
  loadModel path env

/-- Round a rational to the nearest integer, ties to even — the rounding
`"{x:.2f}"` applies (at the exact-rational abstraction of the scalar). -/
def roundHalfEven (q : ℚ) : ℤ :=
  let f : ℤ := ⌊q⌋
  let frac : ℚ := q - f
  if frac < 1/2 then f
  else if 1/2 < frac then f + 1
  else if f % 2 = 0 then f else f + 1

/-- `"{x:.2f}"` for a nonnegative scalar: two digits after the decimal
point. -/
def format2 (q : ℚ) : String :=
  let n : ℤ := roundHalfEven (q * 100)
  toString (n / 100) ++ "." ++ pad2 (n % 100).toNat

/-- The result line `stream1.py` line 94 renders:
`<h2 style='color:darkblue;'>{l['output']}: {clipped_result:.2f} MW</h2>`
(English label `Predicted Output`). -/
def display1 (clipped_result : ℚ) : String :=
  "<h2 style=\x27color:darkblue;\x27>Predicted Output: " ++
  format2 clipped_result ++ " MW</h2>"

/-- The result line `stream11.py` line 115 renders — the same f-string and
the same English `output` label as `stream1.py`. -/
def display11 (clipped_result : ℚ) : String :=
  "<h2 style=\x27color:darkblue;\x27>Predicted Output: " ++
  format2 clipped_result ++ " MW</h2>"

/-- The record `stream1.py` lines 97–102 logs for inputs `v`, raw model
output `x` and current time `t`: the six inputs plus the clamped value. -/
def mkRecord1 (t : String) (v : InputVector) (x : ℚ) : LogRecord :=
  ⟨t, v.steam_flow, v.hrh_p, v.hrh_t, v.main_p, v.hp_t, v.ambient,
   clipped1 x⟩

/-- The record `stream11.py` lines 118–121 logs for inputs `v`, raw model
output `x` and current time `t`. -/
def mkRecord11 (t : String) (v : InputVector) (x : ℚ) : LogRecord :=
  ⟨t, v.steam_flow, v.hrh_p, v.hrh_t, v.main_p, v.hp_t, v.ambient,
   clipped11 x⟩

/-- A user-visible effect of one submit handler run. -/
inductive Effect where
  | markdown (s : String)
  | warn (s : String)
  | uncaught (s : String)
deriving DecidableEq, Repr

/-- The submit block of `stream11.py` lines 109–130: show the clamped
result, then try the append; when the write raises `e` the handler catches
it and warns `Could not write log: {e}`, leaving the file as it was.
`writeError` is `some e` when the append raises. -/
def predictEvent11 (fs : Option CsvFile) (t : String) (v : InputVector)
    (x : ℚ) (writeError : Option String) : List Effect × Option CsvFile :=
  let shown := Effect.markdown (display11 (clipped11 x))
  match writeError with
  | some e => ([shown, Effect.warn ("Could not write log: " ++ e)], fs)
  | none => ([shown], some (appendLog fs (mkRecord11 t v x)))

/-- The submit block of `stream1.py` lines 85–107: show the clamped
result, then append with no exception handler — a failing write escapes
the handler as an uncaught exception. -/
def predictEvent1 (fs : Option CsvFile) (t : String) (v : InputVector)
    (x : ℚ) (writeError : Option String) : List Effect × Option CsvFile :=
  let shown := Effect.markdown (display1 (clipped1 x))
  match writeError with
  | some e => ([shown, Effect.uncaught e], fs)
  | none => ([shown], some (appendLog1 fs (mkRecord1 t v x)))

/-- A sequence of successful prediction events run against an initially
absent log file (`stream11.py`); each event appends its record. -/
def runEvents11 (events : List (String × InputVector × ℚ)) :
    Option CsvFile :=
  events.foldl (fun fs e => some (appendLog fs (mkRecord11 e.1 e.2.1 e.2.2)))
    none

/-- Appending a list of already-built records starting from an absent
file. -/
def appendAll (rs : List LogRecord) : Option CsvFile :=
  rs.foldl (fun fs r => some (appendLog fs r)) none

/-- The default slider values of both scripts. -/
def v0 : InputVector := ⟨850, 4, 525, 16, 538, 25⟩

/-- A concrete timestamp used for witnesses. -/
def t0 : DateTime := ⟨2025, 8, 20, 13, 5, 9⟩

/-- A concrete log record used for witnesses. -/
def rec0 : LogRecord := ⟨"2025-08-20 13:05:09", 850, 4, 525, 16, 538, 25, 250⟩

/-! ### Helper lemmas about decimal formatting -/

theorem digitChar_isDigit : ∀ m, m < 10 → (Nat.digitChar m).isDigit = true := by
  decide

theorem mem_toDigitsCore_isDigit :
    ∀ (fuel n : Nat) (ds : List Char), (∀ c ∈ ds, c.isDigit = true) →
      ∀ c ∈ Nat.toDigitsCore 10 fuel n ds, c.isDigit = true := by
  intro fuel
  induction fuel with
  | zero =>
      intro n ds h c hc
      simp only [Nat.toDigitsCore] at hc
      exact h c hc
  | succ f ih =>
      intro n ds h c hc
      have hd : (Nat.digitChar (n % 10)).isDigit = true :=
        digitChar_isDigit _ (Nat.mod_lt n (by norm_num))
      simp only [Nat.toDigitsCore] at hc
      split at hc
      · rcases List.mem_cons.mp hc with rfl | hmem
        · exact hd
        · exact h c hmem
      · refine ih (n / 10) _ ?_ c hc
        intro c' hc'
        rcases List.mem_cons.mp hc' with rfl | hmem
        · exact hd
        · exact h c' hmem

theorem toString_nat_digits (n : Nat) :
    (toString n).data.all Char.isDigit = true := by
  rw [List.all_eq_true]
  intro c hc
  exact mem_toDigitsCore_isDigit (n + 1) n [] (by intro c' hc'; cases hc') c hc

theorem pad2_digits (n : Nat) : (pad2 n).data.all Char.isDigit = true := by
  unfold pad2
  split
  · have h0 : ("0" ++ toString n).data = '0' :: (toString n).data := rfl
    rw [List.all_eq_true] at *
    intro c hc
    rw [h0] at hc
    rcases List.mem_cons.mp hc with rfl | hmem
    · decide
    · exact List.all_eq_true.mp (toString_nat_digits n) c hmem
  · exact toString_nat_digits n

theorem pad4_digits (n : Nat) : (pad4 n).data.all Char.isDigit = true := by
  have hall := toString_nat_digits n
  unfold pad4
  split
  · have h0 : ("000" ++ toString n).data = '0' :: '0' :: '0' :: (toString n).data := rfl
    rw [List.all_eq_true] at *
    intro c hc
    rw [h0] at hc
    rcases List.mem_cons.mp hc with rfl | hc
    · decide
    rcases List.mem_cons.mp hc with rfl | hc
    · decide
    rcases List.mem_cons.mp hc with rfl | hc
    · decide
    exact hall c hc
  split
  · have h0 : ("00" ++ toString n).data = '0' :: '0' :: (toString n).data := rfl
    rw [List.all_eq_true] at *
    intro c hc
    rw [h0] at hc
    rcases List.mem_cons.mp hc with rfl | hc
    · decide
    rcases List.mem_cons.mp hc with rfl | hc
    · decide
    exact hall c hc
  split
  · have h0 : ("0" ++ toString n).data = '0' :: (toString n).data := rfl
    rw [List.all_eq_true] at *
    intro c hc
    rw [h0] at hc
    rcases List.mem_cons.mp hc with rfl | hc
    · decide
    exact hall c hc
  · exact hall

theorem pad2_length : ∀ n, n < 100 → (pad2 n).length = 2 := by
  decide

set_option maxRecDepth 2000 in
set_option maxHeartbeats 2000000 in
theorem pad4_length_aux :
    ∀ a, a < 100 → ∀ m, m < 100 → (pad4 (100 * a + m)).length = 4 := by
  decide

theorem pad4_length (n : Nat) (h : n < 10000) : (pad4 n).length = 4 := by
  have hd : n / 100 < 100 := Nat.div_lt_of_lt_mul (by omega)
  have hm : n % 100 < 100 := Nat.mod_lt _ (by norm_num)
  have he : 100 * (n / 100) + n % 100 = n := Nat.div_add_mod n 100
  have := pad4_length_aux (n / 100) hd (n % 100) hm
  rwa [he] at this

/-! ### Claim theorems -/

/-- C1: for every raw scalar the model returns, the pipeline's final
result lies in the closed interval [140, 290]; in particular, for every
valid input vector within the slider ranges, `predict` returns a value `v`
with `140 ≤ v ≤ 290`, whatever the opaque model outputs. -/
theorem C1_predict_in_range (model : InputVector → ℚ) (v : InputVector)
    (_h : validInput v) :
    140 ≤ predict model v ∧ predict model v ≤ 290 := by
  unfold predict clipped11
  exact ⟨le_max_right _ _, max_le (le_trans (min_le_right _ _) (by norm_num))
    (by norm_num)⟩

/-- C1 witness: the default slider values with a raw model output of 500. -/
theorem C1_predict_in_range_witness :
    140 ≤ predict (fun _ => 500) ⟨850, 4, 525, 16, 538, 25⟩ ∧
    predict (fun _ => 500) ⟨850, 4, 525, 16, 538, 25⟩ ≤ 290 :=
  C1_predict_in_range (fun _ => 500) ⟨850, 4, 525, 16, 538, 25⟩ (by
    refine ⟨by norm_num, by norm_num, by norm_num, by norm_num, by norm_num,
      by norm_num, by norm_num, by norm_num, by norm_num, by norm_num,
      by norm_num, by norm_num⟩)

/-- C2: the clamp applied to the raw model output is the clamp to
[140, 290]: an in-range scalar is returned unchanged, anything below 140
becomes exactly 140, anything above 290 becomes exactly 290; concretely
310 maps to 290 and 50 maps to 140.  Both variants compute the same
clamp. -/
theorem C2_clamp (x : ℚ) :
    (140 ≤ x → x ≤ 290 → clipped11 x = x) ∧
    (x < 140 → clipped11 x = 140) ∧
    (290 < x → clipped11 x = 290) ∧
    clipped11 310 = 290 ∧ clipped11 50 = 140 ∧ clipped1 x = clipped11 x := by
  refine ⟨?_, ?_, ?_, ?_, ?_, rfl⟩
  · intro h1 h2
    unfold clipped11
    rw [min_eq_left h2, max_eq_left h1]
  · intro h
    unfold clipped11
    rw [min_eq_left (le_trans h.le (by norm_num)), max_eq_right h.le]
  · intro h
    unfold clipped11
    rw [min_eq_right (le_of_lt h), max_eq_left (by norm_num)]
  · unfold clipped11
    rw [min_eq_right (by norm_num), max_eq_left (by norm_num)]
  · unfold clipped11
    rw [min_eq_left (by norm_num), max_eq_right (by norm_num)]

/-- C2 witness: the clamp evaluated at 200 (in range), 50 (below) and
310 (above). -/
theorem C2_clamp_witness :
    clipped11 200 = 200 ∧ clipped11 50 = 140 ∧ clipped11 310 = 290 :=
  ⟨(C2_clamp 200).1 (by norm_num) (by norm_num),
   (C2_clamp 50).2.1 (by norm_num),
   (C2_clamp 310).2.2.1 (by norm_num)⟩

/-- C3: appending a record writes the 8-column header row exactly when the
file does not yet exist, then the record as one row with fields in the
fixed order [Time, SteamFlow, HrhP, HrhT, MainP, HpTemp, Ambient,
PredictedMW]; existing content is preserved and the row goes at the end;
the timestamp has the shape `YYYY-MM-DD HH:MM:SS`. -/
theorem C3_append_header_and_row (t : DateTime) (v : InputVector) (x : ℚ)
    (hy : t.year < 10000) (hmo : t.month ≤ 12) (hd : t.day ≤ 31)
    (hh : t.hour < 24) (hmi : t.minute < 60) (hs : t.second < 60) :
    appendLog none (mkRecord11 (formatTimestamp t) v x) =
      [[Cell.str "Time", Cell.str "Steam Flow", Cell.str "HRH P",
        Cell.str "HRH T", Cell.str "Main Steam P", Cell.str "HP Temp",
        Cell.str "Ambient", Cell.str "Predicted MW"],
       recordRow (mkRecord11 (formatTimestamp t) v x)] ∧
    (∀ rows, appendLog (some rows) (mkRecord11 (formatTimestamp t) v x) =
      rows ++ [recordRow (mkRecord11 (formatTimestamp t) v x)]) ∧
    recordRow (mkRecord11 (formatTimestamp t) v x) =
      [Cell.str (formatTimestamp t), Cell.num v.steam_flow,
       Cell.num v.hrh_p, Cell.num v.hrh_t, Cell.num v.main_p,
       Cell.num v.hp_t, Cell.num v.ambient, Cell.num (clipped11 x)] ∧
    (∃ Y M D H Mi S : String,
      formatTimestamp t =
        Y ++ "-" ++ M ++ "-" ++ D ++ " " ++ H ++ ":" ++ Mi ++ ":" ++ S ∧
      Y.length = 4 ∧ M.length = 2 ∧ D.length = 2 ∧ H.length = 2 ∧
      Mi.length = 2 ∧ S.length = 2 ∧
      Y.data.all Char.isDigit = true ∧ M.data.all Char.isDigit = true ∧
      D.data.all Char.isDigit = true ∧ H.data.all Char.isDigit = true ∧
      Mi.data.all Char.isDigit = true ∧ S.data.all Char.isDigit = true) := by
  refine ⟨rfl, fun rows => rfl, rfl,
    pad4 t.year, pad2 t.month, pad2 t.day, pad2 t.hour, pad2 t.minute,
    pad2 t.second, rfl, pad4_length t.year hy,
    pad2_length t.month (by omega), pad2_length t.day (by omega),
    pad2_length t.hour (by omega), pad2_length t.minute (by omega),
    pad2_length t.second (by omega), pad4_digits t.year,
    pad2_digits t.month, pad2_digits t.day, pad2_digits t.hour,
    pad2_digits t.minute, pad2_digits t.second⟩

/-- C3 witness: the concrete timestamp 2025-08-20 13:05:09 with the
default inputs and a raw model output of 300. -/
theorem C3_append_header_and_row_witness :
    appendLog none (mkRecord11 (formatTimestamp t0) v0 300) =
      [[Cell.str "Time", Cell.str "Steam Flow", Cell.str "HRH P",
        Cell.str "HRH T", Cell.str "Main Steam P", Cell.str "HP Temp",
        Cell.str "Ambient", Cell.str "Predicted MW"],
       recordRow (mkRecord11 (formatTimestamp t0) v0 300)] ∧
    (∀ rows, appendLog (some rows) (mkRecord11 (formatTimestamp t0) v0 300) =
      rows ++ [recordRow (mkRecord11 (formatTimestamp t0) v0 300)]) ∧
    recordRow (mkRecord11 (formatTimestamp t0) v0 300) =
      [Cell.str (formatTimestamp t0), Cell.num v0.steam_flow,
       Cell.num v0.hrh_p, Cell.num v0.hrh_t, Cell.num v0.main_p,
       Cell.num v0.hp_t, Cell.num v0.ambient, Cell.num (clipped11 300)] ∧
    (∃ Y M D H Mi S : String,
      formatTimestamp t0 =
        Y ++ "-" ++ M ++ "-" ++ D ++ " " ++ H ++ ":" ++ Mi ++ ":" ++ S ∧
      Y.length = 4 ∧ M.length = 2 ∧ D.length = 2 ∧ H.length = 2 ∧
      Mi.length = 2 ∧ S.length = 2 ∧
      Y.data.all Char.isDigit = true ∧ M.data.all Char.isDigit = true ∧
      D.data.all Char.isDigit = true ∧ H.data.all Char.isDigit = true ∧
      Mi.data.all Char.isDigit = true ∧ S.data.all Char.isDigit = true) :=
  C3_append_header_and_row t0 v0 300 (by decide) (by decide) (by decide)
    (by decide) (by decide) (by decide)

theorem appendAll_from (rows : CsvFile) (rs : List LogRecord) :
    rs.foldl (fun fs r => some (appendLog fs r)) (some rows) =
      some (rows ++ rs.map recordRow) := by
  induction rs generalizing rows with
  | nil => simp
  | cons r rest ih =>
      rw [List.foldl_cons]
      show rest.foldl (fun fs r => some (appendLog fs r))
        (some (rows ++ [recordRow r])) = _
      rw [ih]
      simp

theorem appendAll_cons (r : LogRecord) (rest : List LogRecord) :
    appendAll (r :: rest) = some (header :: (r :: rest).map recordRow) := by
  unfold appendAll
  rw [List.foldl_cons]
  show rest.foldl (fun fs r => some (appendLog fs r))
    (some [header, recordRow r]) = _
  rw [appendAll_from]
  simp

theorem recordRow_length (r : LogRecord) : (recordRow r).length = header.length :=
  rfl

theorem padRow_exact (w : Nat) (row : Row) (h : row.length = w) :
    padRow w row = row := by
  unfold padRow
  rw [h, Nat.sub_self]
  simp

theorem map_padRow_recordRow (rs : List LogRecord) :
    (rs.map recordRow).map (padRow header.length) = rs.map recordRow := by
  induction rs with
  | nil => rfl
  | cons r rest ih =>
      simp only [List.map_cons]
      rw [ih, padRow_exact _ _ (recordRow_length r)]

theorem readCsv_recordRows (rs : List LogRecord) :
    readCsv (header :: rs.map recordRow) =
      Except.ok (header, rs.map recordRow) := by
  simp only [readCsv]
  rw [if_pos, map_padRow_recordRow]
  intro row hrow
  obtain ⟨rec, _hmem, rfl⟩ := List.mem_map.mp hrow
  exact le_of_eq (recordRow_length rec)

theorem load_log_some (rows : CsvFile) :
    load_log (some rows) = (readCsv rows).toOption :=
  rfl

/-- C4 amended: appending `N ≥ 1` records, starting from an absent log
file, and then reading the whole log back yields the header and exactly
those `N` records' rows, in append order, with equal field values. -/
theorem C4_roundtrip (rs : List LogRecord) (h : rs ≠ []) :
    load_log (appendAll rs) = some (header, rs.map recordRow) := by
  match rs, h with
  | r :: rest, _ =>
      rw [appendAll_cons, load_log_some, readCsv_recordRows]
      rfl

/-- C4 counterexample: at `N = 0` (no appends) the file was never created,
so reading back yields `absent`, not a zero-record read result. -/
theorem C4_roundtrip_cex :
    load_log (appendAll ([] : List LogRecord)) = none ∧
    load_log (appendAll ([] : List LogRecord)) ≠
      some (header, ([] : List LogRecord).map recordRow) := by
  exact ⟨rfl, by simp [appendAll, load_log]⟩

/-- C4 witness: appending one concrete record and reading it back. -/
theorem C4_roundtrip_witness :
    load_log (appendAll [rec0]) = some (header, [rec0].map recordRow) :=
  C4_roundtrip [rec0] (List.cons_ne_nil rec0 [])

/-- C6 amended: in both variants `clear` deletes the log file when
present (reporting success) and is a no-op when absent, and `clear`
followed by `readAll` returns absent in every state; when the file is
absent `stream11` reports the informational message `No log file to
clear.` while `stream1` reports nothing at all. -/
theorem C6_clear (fs : Option CsvFile) :
    (clearLog11 fs).1 = none ∧ (clearLog1 fs).1 = none ∧
    load_log (clearLog11 fs).1 = none ∧ load_log (clearLog1 fs).1 = none ∧
    (∀ rows, fs = some rows →
      (clearLog11 fs).2 = Msg.success "✅ Log cleared successfully." ∧
      (clearLog1 fs).2 = some (Msg.success "✅ Log cleared successfully.")) ∧
    (fs = none →
      (clearLog11 fs).2 = Msg.info "No log file to clear." ∧
      (clearLog1 fs).2 = none) := by
  cases fs <;> simp [clearLog11, clearLog1, load_log]

/-- C6 counterexample: `stream1`'s clear on an absent log file reports
nothing — in particular no informational message. -/
theorem C6_clear_cex :
    (clearLog1 none).2 = none ∧
    (clearLog1 none).2 ≠ some (Msg.info "No log file to clear.") := by
  exact ⟨rfl, by simp [clearLog1]⟩

/-- C6 witness: clearing an absent file. -/
theorem C6_clear_witness :
    (clearLog11 none).2 = Msg.info "No log file to clear." ∧
    (clearLog1 none).2 = none :=
  (C6_clear none).2.2.2.2.2 rfl

/-- C7 amended: `stream11`'s `get_session` is idempotent for repeated
calls with the same path — the second call returns the same handle and
leaves the runtime state (including the list of model-load events)
unchanged, so the model is not reloaded; `stream1` has no cache and
creates a fresh session, reloading the model, on every script run. -/
theorem C7_cached_session (path : String) (env : OrtEnv) :
    (get_session path (get_session path env).2).1 =
      (get_session path env).1 ∧
    (get_session path (get_session path env).2).2 =
      (get_session path env).2 := by
  unfold get_session loadModel
  cases h : env.cache.lookup path with
  | some hd => simp [h]
  | none => simp [h, List.lookup]

/-- C7 counterexample: two consecutive runs of `stream1`'s top-level
session construction return distinct handles and load the model file
twice. -/
theorem C7_cached_session_cex :
    (session1 "unit2mwbig_model.onnx"
        (session1 "unit2mwbig_model.onnx" ⟨[], 0, []⟩).2).1 ≠
      (session1 "unit2mwbig_model.onnx" ⟨[], 0, []⟩).1 ∧
    (session1 "unit2mwbig_model.onnx"
        (session1 "unit2mwbig_model.onnx" ⟨[], 0, []⟩).2).2.loadEvents =
      ["unit2mwbig_model.onnx", "unit2mwbig_model.onnx"] := by
  exact ⟨by simp [session1, loadModel], rfl⟩

/-- C8 amended: in `stream11` a failing append is caught and reported as
the warning `Could not write log: …` after the prediction result has
already been shown; it is attempted once, and the log file is left in the
state it had before; in `stream1` there is no handler and the failure
escapes as an uncaught exception (the result having been rendered
first), not as a warning. -/
theorem C8_append_failure (fs : Option CsvFile) (t : String)
    (v : InputVector) (x : ℚ) (e : String) :
    (predictEvent11 fs t v x (some e)).1 =
      [Effect.markdown (display11 (clipped11 x)),
       Effect.warn ("Could not write log: " ++ e)] ∧
    (predictEvent11 fs t v x (some e)).2 = fs ∧
    (predictEvent11 fs t v x none).2 =
      some (appendLog fs (mkRecord11 t v x)) ∧
    (predictEvent1 fs t v x (some e)).1 =
      [Effect.markdown (display1 (clipped1 x)), Effect.uncaught e] := by
  exact ⟨rfl, rfl, rfl, rfl⟩

/-- C8 counterexample: in `stream1`, a permission error on the append is
not reported as a warning — no warning effect is emitted; the exception
escapes uncaught. -/
theorem C8_append_failure_cex :
    (predictEvent1 none "2025-08-20 13:05:09" v0 300
        (some "PermissionError")).1 =
      [Effect.markdown (display1 (clipped1 300)),
       Effect.uncaught "PermissionError"] ∧
    Effect.warn ("Could not write log: " ++ "PermissionError") ∉
      (predictEvent1 none "2025-08-20 13:05:09" v0 300
        (some "PermissionError")).1 := by
  exact ⟨rfl, by simp [predictEvent1]⟩

/-- C9: the two variants are behaviourally equivalent on the core
pipeline — for the same six inputs and the same raw model output they
compute the same clamped prediction, render the same result line, build
the same log row, write the same header, and transform the log file the
same way. -/
theorem C9_variants_equivalent (fs : Option CsvFile) (t : String)
    (v : InputVector) (x : ℚ) :
    clipped1 x = clipped11 x ∧
    display1 (clipped1 x) = display11 (clipped11 x) ∧
    header1 = header ∧
    recordRow1 (mkRecord1 t v x) = recordRow (mkRecord11 t v x) ∧
    appendLog1 fs (mkRecord1 t v x) = appendLog fs (mkRecord11 t v x) := by
  refine ⟨rfl, rfl, rfl, rfl, ?_⟩
  cases fs <;> rfl

theorem clipped11_bounds (x : ℚ) : 140 ≤ clipped11 x ∧ clipped11 x ≤ 290 := by
  unfold clipped11
  exact ⟨le_max_right _ _,
    max_le (le_trans (min_le_right _ _) (by norm_num)) (by norm_num)⟩

theorem appendLog_mw_cells (fs : Option CsvFile) (t : String)
    (v : InputVector) (x : ℚ)
    (h : ∀ row ∈ fs.getD [], ∀ q : ℚ,
      row[7]? = some (Cell.num q) → 140 ≤ q ∧ q ≤ 290) :
    ∀ row ∈ appendLog fs (mkRecord11 t v x), ∀ q : ℚ,
      row[7]? = some (Cell.num q) → 140 ≤ q ∧ q ≤ 290 := by
  have hrec : ∀ q : ℚ,
      (recordRow (mkRecord11 t v x))[7]? = some (Cell.num q) →
      140 ≤ q ∧ q ≤ 290 := by
    intro q hq
    have : (recordRow (mkRecord11 t v x))[7]? =
        some (Cell.num (clipped11 x)) := rfl
    rw [this] at hq
    obtain rfl : clipped11 x = q := congrArg (fun c =>
      match c with
      | some (Cell.num a) => a
      | _ => (0 : ℚ)) hq
    exact clipped11_bounds x
  cases fs with
  | none =>
      intro row hrow q hq
      rcases List.mem_cons.mp hrow with rfl | hrow
      · cases hq
      rcases List.mem_cons.mp hrow with rfl | hrow
      · exact hrec q hq
      · cases hrow
  | some rows =>
      intro row hrow q hq
      rcases List.mem_append.mp hrow with hmem | hmem
      · exact h row hmem q hq
      · rcases List.mem_cons.mp hmem with rfl | hmem
        · exact hrec q hq
        · cases hmem

theorem runEvents11_mw_cells (events : List (String × InputVector × ℚ)) :
    ∀ fs : Option CsvFile,
      (∀ row ∈ fs.getD [], ∀ q : ℚ,
        row[7]? = some (Cell.num q) → 140 ≤ q ∧ q ≤ 290) →
      ∀ row ∈ (events.foldl
          (fun fs e => some (appendLog fs (mkRecord11 e.1 e.2.1 e.2.2)))
          fs).getD [], ∀ q : ℚ,
        row[7]? = some (Cell.num q) → 140 ≤ q ∧ q ≤ 290 := by
  induction events with
  | nil => intro fs h; exact h
  | cons e rest ih =>
      intro fs h
      rw [List.foldl_cons]
      exact ih (some (appendLog fs (mkRecord11 e.1 e.2.1 e.2.2)))
        (appendLog_mw_cells fs e.1 e.2.1 e.2.2 h)

/-- C10: on every prediction event the Predicted MW field of the logged
record is the very scalar that is displayed (`clipped_result` is used for
both); consequently, after any sequence of prediction events starting
from an absent log file, every numeric value in the log's eighth
(Predicted MW) column lies in [140, 290]. -/
theorem C10_logged_mw (events : List (String × InputVector × ℚ))
    (fs' : CsvFile) (h : runEvents11 events = some fs') :
    (∀ (fs : Option CsvFile) (t : String) (v : InputVector) (x : ℚ),
      (mkRecord11 t v x).predicted_mw = clipped11 x ∧
      (predictEvent11 fs t v x none).1 =
        [Effect.markdown (display11 ((mkRecord11 t v x).predicted_mw))]) ∧
    ∀ row ∈ fs', ∀ q : ℚ,
      row[7]? = some (Cell.num q) → 140 ≤ q ∧ q ≤ 290 := by
  refine ⟨fun fs t v x => ⟨rfl, rfl⟩, ?_⟩
  have := runEvents11_mw_cells events none (by intro row hrow; cases hrow)
  unfold runEvents11 at h
  rw [h] at this
  exact this

/-- C10 witness: one concrete prediction event with a raw model output of
300, logged as the clamped 290. -/
theorem C10_logged_mw_witness :
    (∀ (fs : Option CsvFile) (t : String) (v : InputVector) (x : ℚ),
      (mkRecord11 t v x).predicted_mw = clipped11 x ∧
      (predictEvent11 fs t v x none).1 =
        [Effect.markdown (display11 ((mkRecord11 t v x).predicted_mw))]) ∧
    ∀ row ∈ [header, recordRow (mkRecord11 "2025-08-20 13:05:09" v0 300)],
      ∀ q : ℚ, row[7]? = some (Cell.num q) → 140 ≤ q ∧ q ≤ 290 :=
  C10_logged_mw [("2025-08-20 13:05:09", v0, 300)]
    [header, recordRow (mkRecord11 "2025-08-20 13:05:09" v0 300)] rfl
